import Mathlib

/-!
# locar.js: the Webcam class (src/lib/three/webcam.js)

A shallow embedding of the constructor of Webcam and of its private async
method initCamera.  The browser is an explicit parameter (Platform): which
capture API objects exist, how each awaited promise settles, what every
device reports from getCapabilities, and which loadedmetadata notifications
the video element delivers.  Running the code against a platform yields a
Timeline: the effects performed before the constructor returns, and the
effects performed in later turns of the event loop.

Conventions
* width.max is an unsigned long in MediaTrackCapabilities, embedded as Nat.
* console.log and JSON.stringify calls of the scoring loop are diagnostics
  and are left out of the effect trace.
* getCapabilities is a query; its outcome (a value, or a thrown exception)
  is a field of the device.
* document.querySelector is assumed to find the video element named by the
  selector.
-/

namespace Locar

/-! ## Data model -/

/-- A JavaScript value, as far as constraint objects need it. -/
inductive JsValue where
  | undefined
  | null
  | bool (b : Bool)
  | num (n : Int)
  | str (s : String)
  | obj (fields : List (String × JsValue))

/-- A thrown JavaScript exception or a promise rejection reason: only the two
properties read by the catch block. -/
structure JsError where
  name : String
  message : String
deriving DecidableEq, Repr

/-- The range type of MediaTrackCapabilities.width. -/
structure ULongRange where
  max : Option Nat
  min : Option Nat
deriving DecidableEq, Repr

/-- The fields of MediaTrackCapabilities read by the scoring loop; a field
that is none is undefined in JavaScript. -/
structure MediaTrackCapabilities where
  facingMode : Option (List String)
  width : Option ULongRange
deriving DecidableEq, Repr

/-- One entry of the list resolved by enumerateDevices. -/
structure MediaDeviceInfo where
  kind : String
  deviceId : String
  getCapabilities : Except JsError MediaTrackCapabilities

/-- A MediaStream handle. -/
structure MediaStream where
  id : Nat
deriving DecidableEq, Repr

/-- A THREE.VideoTexture handle; equality is reference identity. -/
structure VideoTexture where
  id : Nat
deriving DecidableEq, Repr

/-- How an awaited promise settles; pending means it never does. -/
inductive Settled (α : Type) where
  | resolved (a : α)
  | rejected (e : JsError)
  | pending

/-- The object navigator.mediaDevices; getUserMedia is none when the property
is missing (falsy). -/
structure MediaDevices where
  getUserMedia : Option (JsValue → Settled MediaStream)
  enumerateDevices : Settled (List MediaDeviceInfo)

/-- The browser as seen by the Webcam class. -/
structure Platform where
  /-- The property navigator.mediaDevices, none when undefined. -/
  mediaDevices : Option MediaDevices
  /-- Message text of the TypeError the engine throws when a property (named
  by the argument) is read from undefined. -/
  typeErrorMessage : String → String
  /-- The object built by new THREE.VideoTexture. -/
  newVideoTexture : VideoTexture
  /-- Successive loadedmetadata notifications of the video element once a
  stream is attached, each with videoWidth and videoHeight at that moment. -/
  loadedmetadata : List (Nat × Nat)

/-- Payload of an emitted event. -/
inductive Payload where
  | started (texture : VideoTexture)
  | error (code : String) (message : String)
deriving DecidableEq, Repr

/-- Observable effects of the constructor and of initCamera. -/
inductive Effect where
  | newScene
  | createVideo
  | querySelector (selector : String)
  | newTexture
  | enumerateDevices
  | getUserMedia (constraints : JsValue)
  | addLoadedMetadataListener
  | setSrcObject (stream : MediaStream)
  | setAttribute (attr : String) (value : JsValue)
  | play
  | emit (event : String) (payload : Payload)

/-- Effects split at the return of the constructor. -/
structure Timeline where
  duringConstruction : List Effect
  afterConstruction : List Effect

/-- The fields of a Webcam instance. -/
structure Webcam where
  texture : VideoTexture

/-! ## The scoring loop (webcam.js lines 43-56) -/

/-- Array.prototype.indexOf: position of the first strictly equal element, or -1. -/
def jsIndexOf : List String → String → Int
  | [], _ => -1
  | x :: xs, s => if x = s then 0 else
      let r := jsIndexOf xs s
      if r < 0 then -1 else r + 1

/-- The TypeError of reading a property of undefined. -/
def typeError (p : Platform) (property : String) : JsError :=
  { name := "TypeError", message := p.typeErrorMessage property }

/-- The filter of line 43. -/
def usefulDevices (foundDevices : List MediaDeviceInfo) : List MediaDeviceInfo :=
  foundDevices.filter (fun mediaDevice => mediaDevice.kind == "videoinput")

/-- One call of the forEach callback (lines 45-56) on the closure variables
(maxWidth, deviceId). -/
def scoreStep (p : Platform) (st : Nat × Option String) (mediaDevice : MediaDeviceInfo) :
    Except JsError (Nat × Option String) :=
  match mediaDevice.getCapabilities with
  | .error e => .error e
  | .ok cap =>
    match cap.facingMode with
    | none => .error (typeError p "indexOf")
    | some facingMode =>
      if jsIndexOf facingMode "environment" ≥ 0 then
        match cap.width with
        | none => .error (typeError p "max")
        | some width =>
          match width.max with
          | none => .ok st
          | some max => if max > st.1 then .ok (max, some mediaDevice.deviceId) else .ok st
      else .ok st

/-- The forEach loop over usefulDevices; an exception ends the loop. -/
def scoreDevices (p : Platform) :
    List MediaDeviceInfo → Nat × Option String → Except JsError (Nat × Option String)
  | [], st => .ok st
  | mediaDevice :: rest, st =>
    match scoreStep p st mediaDevice with
    | .error e => .error e
    | .ok st1 => scoreDevices p rest st1

/-! ## initCamera (webcam.js lines 37-92) -/

/-- The object literal of line 60. -/
def exactDevice (deviceId : String) : JsValue :=
  .obj [("video", .obj [("deviceId", .obj [("exact", .str deviceId)])])]

/-- Lines 58-61. -/
def overrideConstraints (constraints : JsValue) : Option String → JsValue
  | none => constraints
  | some deviceId => exactDevice deviceId

/-- The emit of the else branch (lines 87-90). -/
def noMediaDevicesError : Effect :=
  .emit "webcamerror" (.error "LOCAR_NO_MEDIA_DEVICES_API" "Media devices API not supported")

/-- The emit of the catch block (lines 81-84). -/
def emitError (e : JsError) : Effect :=
  .emit "webcamerror" (.error e.name e.message)

/-- One run of the loadedmetadata listener (lines 63-73). -/
def onLoadedMetadata (self : Webcam) (dims : Nat × Nat) : List Effect :=
  [ .setAttribute "width" (.num dims.1),
    .setAttribute "height" (.num dims.2),
    .play,
    .emit "webcamstarted" (.started self.texture) ]

/-- What follows the await of line 62, by how getUserMedia settled. -/
def afterGetUserMedia (p : Platform) (self : Webcam) : Settled MediaStream → List Effect
  | .pending => []
  | .rejected e => [emitError e]
  | .resolved stream =>
    [.addLoadedMetadataListener, .setSrcObject stream]
      ++ (p.loadedmetadata.map (onLoadedMetadata self)).flatten

/-- The private async method initCamera.  An async function runs synchronously
up to its first await: whatever it does before that belongs to the turn of the
caller (the constructor), the rest to later turns. -/
def initCamera (p : Platform) (self : Webcam) (constraints : JsValue)
    (findMaxWidthDevice : Bool) : Timeline :=
  match p.mediaDevices with
  | none => { duringConstruction := [noMediaDevicesError], afterConstruction := [] }
  | some md =>
    match md.getUserMedia with
    | none => { duringConstruction := [noMediaDevicesError], afterConstruction := [] }
    | some getUserMedia =>
      if findMaxWidthDevice then
        { duringConstruction := [.enumerateDevices],
          afterConstruction :=
            match md.enumerateDevices with
            | .pending => []
            | .rejected e => [emitError e]
            | .resolved foundDevices =>
              match scoreDevices p (usefulDevices foundDevices) (0, none) with
              | .error e => [emitError e]
              | .ok st =>
                let constraints1 := overrideConstraints constraints st.2
                .getUserMedia constraints1
                  :: afterGetUserMedia p self (getUserMedia constraints1) }
      else
        { duringConstruction := [.getUserMedia constraints],
          afterConstruction := afterGetUserMedia p self (getUserMedia constraints) }

/-! ## The constructor (webcam.js lines 17-35) -/

/-- Falsiness of the videoElementSelector argument: null, undefined or the
empty string. -/
def selectorFalsy : Option String → Bool
  | none => true
  | some s => s == ""

/-- Lines 22-33: scene, video element, texture. -/
def constructorPrologue (videoElementSelector : Option String) : List Effect :=
  [.newScene]
    ++ (if selectorFalsy videoElementSelector then [.createVideo]
        else [.querySelector (videoElementSelector.getD "")])
    ++ [.newTexture]

/-- The default value of the constraints parameter (line 18). -/
def defaultConstraints : JsValue :=
  .obj [("video", .obj [("facingMode", .str "environment")])]

/-- The constructor: the new instance and everything it sets in motion. -/
def construct (p : Platform) (constraints : JsValue) (videoElementSelector : Option String)
    (findMaxWidthDevice : Bool) : Webcam × Timeline :=
  let self : Webcam := { texture := p.newVideoTexture }
  let t := initCamera p self constraints findMaxWidthDevice
  (self, { duringConstruction := constructorPrologue videoElementSelector ++ t.duringConstruction,
           afterConstruction := t.afterConstruction })

/-! ## Observations on a timeline -/

/-- Every effect of a timeline, in order. -/
def Timeline.effects (t : Timeline) : List Effect :=
  t.duringConstruction ++ t.afterConstruction

/-- The argument of a getUserMedia call. -/
def Effect.getUserMediaArg : Effect → Option JsValue
  | .getUserMedia c => some c
  | _ => none

/-- The arguments of the getUserMedia calls in a trace. -/
def getUserMediaCalls (es : List Effect) : List JsValue :=
  es.filterMap Effect.getUserMediaArg

/-- Whether an effect is a call of enumerateDevices. -/
def Effect.isEnumerate : Effect → Bool
  | .enumerateDevices => true
  | _ => false

/-- Number of enumerateDevices calls in a trace. -/
def enumerateCalls (es : List Effect) : Nat :=
  (es.filter Effect.isEnumerate).length

/-- The stream of an assignment to srcObject. -/
def Effect.attached : Effect → Option MediaStream
  | .setSrcObject s => some s
  | _ => none

/-- Streams assigned to srcObject in a trace. -/
def attachedStreams (es : List Effect) : List MediaStream :=
  es.filterMap Effect.attached

/-- The payload of an emit under the given event name. -/
def Effect.emittedAs (event : String) : Effect → Option Payload
  | .emit ev payload => if ev = event then some payload else none
  | _ => none

/-- Payloads emitted under a given event name in a trace. -/
def emitted (event : String) (es : List Effect) : List Payload :=
  es.filterMap (Effect.emittedAs event)

/-! ## Vocabulary of the properties -/

/-- The width.max a device offers to the scoring: defined when getCapabilities
returns, facingMode lists "environment", and width.max is defined. -/
def envWidth (d : MediaDeviceInfo) : Option Nat :=
  match d.getCapabilities with
  | .error _ => none
  | .ok cap =>
    match cap.facingMode, cap.width with
    | some facingMode, some width => if "environment" ∈ facingMode then width.max else none
    | _, _ => none

/-- A candidate: a device of kind videoinput whose facingMode contains
"environment" and whose width.max is defined; the value is that width.max. -/
def candidateWidth (d : MediaDeviceInfo) : Option Nat :=
  if d.kind = "videoinput" then envWidth d else none

/-- The capabilities lack a field the callback reads: no facingMode, or
facingMode contains "environment" and there is no width. -/
def lacksScoredField (d : MediaDeviceInfo) : Bool :=
  match d.getCapabilities with
  | .error _ => false
  | .ok cap =>
    match cap.facingMode with
    | none => true
    | some facingMode => decide ("environment" ∈ facingMode) && cap.width.isNone

/-- Inspecting the device raises an exception: getCapabilities throws, or the
capabilities lack a field the callback reads. -/
def inspectionThrows (d : MediaDeviceInfo) : Bool :=
  match d.getCapabilities with
  | .error _ => true
  | .ok _ => lacksScoredField d

/-- The closure variables after the callback ran on a device without throwing. -/
def advance (st : Nat × Option String) (d : MediaDeviceInfo) : Nat × Option String :=
  match envWidth d with
  | some w => if w > st.1 then (w, some d.deviceId) else st
  | none => st

/-! ## Listeners -/

/-- Modelled from the spec: the publish/subscribe base class of
event-emitter.js, which is not among the sources.  The spec asks of it only
"register listener for named event" and "emit named event with payload": an
emit reaches the handlers registered under that name at that moment, and
nothing is kept for handlers registered later. -/
structure EventEmitter where
  handlers : List String
  delivered : List (String × Payload)

/-- Registration of a handler under an event name. -/
def EventEmitter.on (em : EventEmitter) (event : String) : EventEmitter :=
  { em with handlers := event :: em.handlers }

/-- Emission: delivered when a handler is registered under the name. -/
def EventEmitter.emit (em : EventEmitter) (event : String) (payload : Payload) : EventEmitter :=
  if event ∈ em.handlers then { em with delivered := em.delivered ++ [(event, payload)] }
  else em

/-- The emits of a trace, in order. -/
def EventEmitter.run (em : EventEmitter) : List Effect → EventEmitter
  | [] => em
  | .emit event payload :: es => (em.emit event payload).run es
  | _ :: es => em.run es

/-- What the handlers of a caller receive when the caller registers them, under
the given names, in the statements that follow the construction. -/
def deliveredAfterConstruction (t : Timeline) (events : List String) :
    List (String × Payload) :=
  let em0 : EventEmitter := { handlers := [], delivered := [] }
  let em1 := em0.run t.duringConstruction
  let em2 := events.foldl EventEmitter.on em1
  (em2.run t.afterConstruction).delivered

/-- Whether a promise settles. -/
def Settled.isSettled {α : Type} : Settled α → Bool
  | .pending => false
  | _ => true

/-- Every promise the code may await settles. -/
def Platform.settles (p : Platform) : Prop :=
  ∀ md, p.mediaDevices = some md →
    md.enumerateDevices.isSettled = true
      ∧ ∀ getUserMedia, md.getUserMedia = some getUserMedia →
          ∀ c, (getUserMedia c).isSettled = true

/-! ## Sample platforms -/

/-- Message text of a typical engine. -/
def engineMessage (property : String) : String :=
  "Cannot read properties of undefined (reading " ++ property ++ ")"

/-- A sample instance. -/
def sampleWebcam : Webcam := { texture := { id := 7 } }

/-- A stream handle. -/
def sampleStream : MediaStream := { id := 1 }

/-- A getUserMedia that grants every request. -/
def grant (_ : JsValue) : Settled MediaStream := .resolved sampleStream

/-- A getUserMedia that refuses every request. -/
def deny (_ : JsValue) : Settled MediaStream :=
  .rejected { name := "NotAllowedError", message := "Permission denied" }

/-- A page without navigator.mediaDevices (an insecure context, for example). -/
def noCapturePlatform : Platform :=
  { mediaDevices := none, typeErrorMessage := engineMessage,
    newVideoTexture := { id := 7 }, loadedmetadata := [] }

/-- A browser with the given devices, getUserMedia and notifications. -/
def browser (devices : List MediaDeviceInfo) (getUserMedia : JsValue → Settled MediaStream)
    (notifications : List (Nat × Nat)) : Platform :=
  { mediaDevices := some { getUserMedia := some getUserMedia,
                           enumerateDevices := .resolved devices },
    typeErrorMessage := engineMessage,
    newVideoTexture := { id := 7 }, loadedmetadata := notifications }

/-- A video input with the given facing modes and width.max. -/
def camera (deviceId : String) (facingMode : List String) (max : Nat) : MediaDeviceInfo :=
  { kind := "videoinput", deviceId := deviceId,
    getCapabilities := .ok { facingMode := some facingMode,
                             width := some { max := some max, min := some 1 } } }

/-- A video input whose capabilities object has no fields. -/
def bareCamera (deviceId : String) : MediaDeviceInfo :=
  { kind := "videoinput", deviceId := deviceId,
    getCapabilities := .ok { facingMode := none, width := none } }

/-- An audio input. -/
def microphone (deviceId : String) : MediaDeviceInfo :=
  { kind := "audioinput", deviceId := deviceId,
    getCapabilities := .ok { facingMode := none, width := none } }

/-! ## Lemmas: traces -/

theorem getUserMediaCalls_flatten_onLoaded (self : Webcam) (l : List (Nat × Nat)) :
    getUserMediaCalls ((l.map (onLoadedMetadata self)).flatten) = [] := by
  induction l with
  | nil => rfl
  | cons x xs ih =>
    simp only [List.map_cons, List.flatten_cons, getUserMediaCalls, List.filterMap_append] at ih ⊢
    rw [ih]; rfl

theorem enumerateCalls_flatten_onLoaded (self : Webcam) (l : List (Nat × Nat)) :
    enumerateCalls ((l.map (onLoadedMetadata self)).flatten) = 0 := by
  induction l with
  | nil => rfl
  | cons x xs ih =>
    simp only [List.map_cons, List.flatten_cons, enumerateCalls, List.filter_append,
      List.length_append] at ih ⊢
    rw [ih]; rfl

theorem attachedStreams_flatten_onLoaded (self : Webcam) (l : List (Nat × Nat)) :
    attachedStreams ((l.map (onLoadedMetadata self)).flatten) = [] := by
  induction l with
  | nil => rfl
  | cons x xs ih =>
    simp only [List.map_cons, List.flatten_cons, attachedStreams, List.filterMap_append] at ih ⊢
    rw [ih]; rfl

theorem emitted_error_flatten_onLoaded (self : Webcam) (l : List (Nat × Nat)) :
    emitted "webcamerror" ((l.map (onLoadedMetadata self)).flatten) = [] := by
  induction l with
  | nil => rfl
  | cons x xs ih =>
    simp only [List.map_cons, List.flatten_cons, emitted, List.filterMap_append] at ih ⊢
    rw [ih]; rfl

theorem emitted_started_flatten_onLoaded (self : Webcam) (l : List (Nat × Nat)) :
    emitted "webcamstarted" ((l.map (onLoadedMetadata self)).flatten)
      = List.replicate l.length (Payload.started self.texture) := by
  induction l with
  | nil => rfl
  | cons x xs ih =>
    simp only [List.map_cons, List.flatten_cons, emitted, List.filterMap_append,
      List.length_cons, List.replicate_succ] at ih ⊢
    rw [ih]; rfl

theorem getUserMediaCalls_afterGetUserMedia (p : Platform) (self : Webcam)
    (r : Settled MediaStream) : getUserMediaCalls (afterGetUserMedia p self r) = [] := by
  cases r with
  | pending => rfl
  | rejected e => rfl
  | resolved s =>
    have h := getUserMediaCalls_flatten_onLoaded self p.loadedmetadata
    simp only [afterGetUserMedia, getUserMediaCalls, List.filterMap_append] at h ⊢
    rw [h]; rfl

theorem enumerateCalls_afterGetUserMedia (p : Platform) (self : Webcam)
    (r : Settled MediaStream) : enumerateCalls (afterGetUserMedia p self r) = 0 := by
  cases r with
  | pending => rfl
  | rejected e => rfl
  | resolved s =>
    have h := enumerateCalls_flatten_onLoaded self p.loadedmetadata
    simp only [afterGetUserMedia, enumerateCalls, List.filter_append, List.length_append] at h ⊢
    rw [h]; rfl

/-! ## Capture capability absent -/

/-- C2: when navigator.mediaDevices or its getUserMedia is missing, initCamera
performs a single effect, the emit of webcamerror with code
LOCAR_NO_MEDIA_DEVICES_API; getUserMedia and enumerateDevices are never called
and webcamstarted is not emitted, whatever the constraints and whatever
findMaxWidthDevice. -/
theorem initCamera_capability_absent (p : Platform) (self : Webcam) (constraints : JsValue)
    (findMaxWidthDevice : Bool)
    (h : p.mediaDevices = none ∨ ∃ md, p.mediaDevices = some md ∧ md.getUserMedia = none) :
    (initCamera p self constraints findMaxWidthDevice).effects
        = [Effect.emit "webcamerror"
            (Payload.error "LOCAR_NO_MEDIA_DEVICES_API" "Media devices API not supported")]
      ∧ emitted "webcamerror" (initCamera p self constraints findMaxWidthDevice).effects
        = [Payload.error "LOCAR_NO_MEDIA_DEVICES_API" "Media devices API not supported"]
      ∧ getUserMediaCalls (initCamera p self constraints findMaxWidthDevice).effects = []
      ∧ enumerateCalls (initCamera p self constraints findMaxWidthDevice).effects = 0
      ∧ emitted "webcamstarted" (initCamera p self constraints findMaxWidthDevice).effects = [] := by
  have key : initCamera p self constraints findMaxWidthDevice
      = { duringConstruction := [noMediaDevicesError], afterConstruction := [] } := by
    rcases h with h | ⟨md, h1, h2⟩
    · simp only [initCamera, h]
    · simp only [initCamera, h1, h2]
  rw [key]
  refine ⟨rfl, ?_, rfl, rfl, ?_⟩
  · simp [Timeline.effects, noMediaDevicesError, emitted, Effect.emittedAs]
  · simp [Timeline.effects, noMediaDevicesError, emitted, Effect.emittedAs]

/-- Witness of C2 on a page without navigator.mediaDevices, with
findMaxWidthDevice set. -/
theorem initCamera_capability_absent_witness :
    (initCamera noCapturePlatform sampleWebcam defaultConstraints true).effects
        = [Effect.emit "webcamerror"
            (Payload.error "LOCAR_NO_MEDIA_DEVICES_API" "Media devices API not supported")]
      ∧ emitted "webcamerror"
          (initCamera noCapturePlatform sampleWebcam defaultConstraints true).effects
        = [Payload.error "LOCAR_NO_MEDIA_DEVICES_API" "Media devices API not supported"]
      ∧ getUserMediaCalls
          (initCamera noCapturePlatform sampleWebcam defaultConstraints true).effects = []
      ∧ enumerateCalls
          (initCamera noCapturePlatform sampleWebcam defaultConstraints true).effects = 0
      ∧ emitted "webcamstarted"
          (initCamera noCapturePlatform sampleWebcam defaultConstraints true).effects = [] :=
  initCamera_capability_absent noCapturePlatform sampleWebcam defaultConstraints true
    (Or.inl rfl)

/-! ## No device search -/

/-- C5: with findMaxWidthDevice false and the capture API present, getUserMedia
is called exactly once, with the constraints of the caller unchanged, and
enumerateDevices is never called. -/
theorem initCamera_verbatim_constraints (p : Platform) (self : Webcam) (constraints : JsValue)
    (md : MediaDevices) (getUserMedia : JsValue → Settled MediaStream)
    (h1 : p.mediaDevices = some md) (h2 : md.getUserMedia = some getUserMedia) :
    getUserMediaCalls (initCamera p self constraints false).effects = [constraints]
      ∧ enumerateCalls (initCamera p self constraints false).effects = 0
      ∧ (initCamera p self constraints false).duringConstruction
          = [Effect.getUserMedia constraints] := by
  have key : initCamera p self constraints false
      = { duringConstruction := [.getUserMedia constraints],
          afterConstruction := afterGetUserMedia p self (getUserMedia constraints) } := by
    simp [initCamera, h1, h2]
  rw [key]
  refine ⟨?_, ?_, rfl⟩
  · have h := getUserMediaCalls_afterGetUserMedia p self (getUserMedia constraints)
    simp only [Timeline.effects, getUserMediaCalls, List.filterMap_append] at h ⊢
    rw [h]; rfl
  · have h := enumerateCalls_afterGetUserMedia p self (getUserMedia constraints)
    simp only [Timeline.effects, enumerateCalls, List.filter_append, List.length_append] at h ⊢
    rw [h]; rfl

/-- Witness of C5: a browser that grants the request, caller constraints
naming an exact device. -/
theorem initCamera_verbatim_constraints_witness :
    getUserMediaCalls
        (initCamera (browser [camera "a" ["environment"] 1920] grant [(1280, 720)])
          sampleWebcam (JsValue.obj [("video", JsValue.bool true)]) false).effects
        = [JsValue.obj [("video", JsValue.bool true)]]
      ∧ enumerateCalls
          (initCamera (browser [camera "a" ["environment"] 1920] grant [(1280, 720)])
            sampleWebcam (JsValue.obj [("video", JsValue.bool true)]) false).effects = 0
      ∧ (initCamera (browser [camera "a" ["environment"] 1920] grant [(1280, 720)])
            sampleWebcam (JsValue.obj [("video", JsValue.bool true)]) false).duringConstruction
          = [Effect.getUserMedia (JsValue.obj [("video", JsValue.bool true)])] :=
  initCamera_verbatim_constraints _ sampleWebcam _ _ grant rfl rfl

/-! ## Lemmas: the scoring loop -/

theorem jsIndexOf_nonneg_iff (xs : List String) (s : String) :
    jsIndexOf xs s ≥ 0 ↔ s ∈ xs := by
  induction xs with
  | nil => simp [jsIndexOf]
  | cons x xs ih =>
    by_cases hx : x = s
    · simp [jsIndexOf, hx]
    · have hx2 : ¬ s = x := fun h => hx h.symm
      simp only [jsIndexOf, hx, if_false, List.mem_cons, hx2, false_or]
      rw [← ih]
      by_cases hr : jsIndexOf xs s < 0
      · simp only [hr, if_true]; omega
      · simp only [hr, if_false]; omega

theorem scoreStep_of_not_throws (p : Platform) (st : Nat × Option String) (d : MediaDeviceInfo)
    (h : inspectionThrows d = false) : scoreStep p st d = .ok (advance st d) := by
  rcases d with ⟨kind, id, caps⟩
  cases caps with
  | error e => simp [inspectionThrows] at h
  | ok cap =>
    rcases cap with ⟨fm, width⟩
    cases fm with
    | none => simp [inspectionThrows, lacksScoredField] at h
    | some fm =>
      by_cases henv : "environment" ∈ fm
      · have hidx : jsIndexOf fm "environment" ≥ 0 := (jsIndexOf_nonneg_iff _ _).2 henv
        cases width with
        | none => simp [inspectionThrows, lacksScoredField, henv] at h
        | some width =>
          rcases width with ⟨mx, mn⟩
          cases mx with
          | none => simp [scoreStep, advance, envWidth, hidx, henv]
          | some m =>
            by_cases hm : m > st.1
            · simp [scoreStep, advance, envWidth, hidx, henv, hm]
            · simp [scoreStep, advance, envWidth, hidx, henv, hm]
      · have hidx : ¬ jsIndexOf fm "environment" ≥ 0 := fun h2 =>
          henv ((jsIndexOf_nonneg_iff _ _).1 h2)
        cases width with
        | none => simp [scoreStep, advance, envWidth, hidx, henv]
        | some width => simp [scoreStep, advance, envWidth, hidx, henv]

theorem scoreStep_of_throws (p : Platform) (st : Nat × Option String) (d : MediaDeviceInfo)
    (h : inspectionThrows d = true) : ∃ e, scoreStep p st d = .error e := by
  rcases d with ⟨kind, id, caps⟩
  cases caps with
  | error e => exact ⟨e, by simp [scoreStep]⟩
  | ok cap =>
    rcases cap with ⟨fm, width⟩
    cases fm with
    | none => exact ⟨typeError p "indexOf", by simp [scoreStep]⟩
    | some fm =>
      simp only [inspectionThrows, lacksScoredField, Bool.and_eq_true, decide_eq_true_eq,
        Option.isNone_iff_eq_none] at h
      have hidx : jsIndexOf fm "environment" ≥ 0 := (jsIndexOf_nonneg_iff _ _).2 h.1
      have hw : width = none := h.2
      subst hw
      exact ⟨typeError p "max", by simp [scoreStep, hidx]⟩

theorem scoreDevices_of_throws (p : Platform) (us : List MediaDeviceInfo) :
    ∀ st : Nat × Option String, (∃ d ∈ us, inspectionThrows d = true) →
      ∃ e, scoreDevices p us st = .error e := by
  induction us with
  | nil => intro st h; simp at h
  | cons d rest ih =>
    intro st h
    by_cases hd : inspectionThrows d = true
    · obtain ⟨e, he⟩ := scoreStep_of_throws p st d hd
      exact ⟨e, by simp [scoreDevices, he]⟩
    · have hd2 : inspectionThrows d = false := by simpa using hd
      have hrest : ∃ c ∈ rest, inspectionThrows c = true := by
        obtain ⟨c, hc, hct⟩ := h
        rcases List.mem_cons.1 hc with hc | hc
        · subst hc; exact absurd hct hd
        · exact ⟨c, hc, hct⟩
      obtain ⟨e, he⟩ := ih (advance st d) hrest
      exact ⟨e, by simp [scoreDevices, scoreStep_of_not_throws p st d hd2, he]⟩

theorem advance_fst_le (st : Nat × Option String) (d : MediaDeviceInfo) :
    st.1 ≤ (advance st d).1 := by
  unfold advance
  split
  · split
    · simp only; omega
    · exact Nat.le_refl _
  · exact Nat.le_refl _

theorem envWidth_le_advance (st : Nat × Option String) (d : MediaDeviceInfo) (w : Nat)
    (h : envWidth d = some w) : w ≤ (advance st d).1 := by
  unfold advance
  rw [h]
  simp only
  split
  · exact Nat.le_refl _
  · omega

theorem advance_cases (st : Nat × Option String) (d : MediaDeviceInfo) :
    advance st d = st ∨
      (st.1 < (advance st d).1 ∧ envWidth d = some (advance st d).1
        ∧ (advance st d).2 = some d.deviceId) := by
  unfold advance
  cases h : envWidth d with
  | none => exact Or.inl rfl
  | some w =>
    by_cases hw : w > st.1
    · right
      simp [hw]
    · left
      simp [hw]

theorem scoreDevices_of_not_throws (p : Platform) (us : List MediaDeviceInfo) :
    ∀ st : Nat × Option String, (∀ d ∈ us, inspectionThrows d = false) →
      ∃ st1, scoreDevices p us st = .ok st1 ∧ st.1 ≤ st1.1
        ∧ (∀ d ∈ us, ∀ w, envWidth d = some w → w ≤ st1.1)
        ∧ (st1 = st ∨ (st.1 < st1.1 ∧ ∃ pre d post, us = pre ++ d :: post
            ∧ envWidth d = some st1.1 ∧ st1.2 = some d.deviceId
            ∧ ∀ c ∈ pre, ∀ w, envWidth c = some w → w < st1.1)) := by
  induction us with
  | nil => intro st _; exact ⟨st, rfl, Nat.le_refl _, by simp, Or.inl rfl⟩
  | cons d rest ih =>
    intro st h
    have hd : inspectionThrows d = false := h d (List.mem_cons_self _ _)
    have hrest : ∀ c ∈ rest, inspectionThrows c = false :=
      fun c hc => h c (List.mem_cons_of_mem _ hc)
    obtain ⟨st1, hrun, hle, hall, hsel⟩ := ih (advance st d) hrest
    have hstep := advance_fst_le st d
    refine ⟨st1, ?_, Nat.le_trans hstep hle, ?_, ?_⟩
    · simp [scoreDevices, scoreStep_of_not_throws p st d hd, hrun]
    · intro c hc w hw
      rcases List.mem_cons.1 hc with hc | hc
      · subst hc; exact Nat.le_trans (envWidth_le_advance st c w hw) hle
      · exact hall c hc w hw
    · rcases advance_cases st d with hadv | ⟨hlt, henv, hid⟩
      · rcases hsel with heq | ⟨hlt2, pre, d2, post, hsplit, henv2, hid2, hpre⟩
        · exact Or.inl (heq.trans hadv)
        · refine Or.inr ⟨by rw [hadv] at hlt2; exact hlt2, d :: pre, d2, post, ?_, henv2, hid2, ?_⟩
          · simp [hsplit]
          · intro c hc w hw
            rcases List.mem_cons.1 hc with hc | hc
            · subst hc
              have := envWidth_le_advance st c w hw
              omega
            · exact hpre c hc w hw
      · rcases hsel with heq | ⟨hlt2, pre, d2, post, hsplit, henv2, hid2, hpre⟩
        · refine Or.inr ⟨by rw [heq]; exact hlt, [], d, rest, rfl, ?_, ?_, ?_⟩
          · rw [heq]; exact henv
          · rw [heq]; exact hid
          · intro c hc; simp at hc
        · refine Or.inr ⟨Nat.lt_trans hlt hlt2, d :: pre, d2, post, ?_, henv2, hid2, ?_⟩
          · simp [hsplit]
          · intro c hc w hw
            rcases List.mem_cons.1 hc with hc | hc
            · subst hc
              rw [henv] at hw
              have : (advance st c).1 = w := Option.some.inj hw
              omega
            · exact hpre c hc w hw

theorem mem_usefulDevices (ds : List MediaDeviceInfo) (d : MediaDeviceInfo) :
    d ∈ usefulDevices ds ↔ d ∈ ds ∧ d.kind = "videoinput" := by
  simp [usefulDevices]

theorem candidateWidth_of_useful (d : MediaDeviceInfo) (h : d.kind = "videoinput") :
    candidateWidth d = envWidth d := by
  simp [candidateWidth, h]

theorem kind_of_candidateWidth (d : MediaDeviceInfo) (w : Nat)
    (h : candidateWidth d = some w) : d.kind = "videoinput" ∧ envWidth d = some w := by
  unfold candidateWidth at h
  by_cases hk : d.kind = "videoinput"
  · rw [if_pos hk] at h; exact ⟨hk, h⟩
  · rw [if_neg hk] at h; cases h

/-- A device whose facingMode does not list "environment" is no candidate. -/
theorem candidateWidth_none_of_no_environment (d : MediaDeviceInfo)
    (cap : MediaTrackCapabilities) (facingMode : List String)
    (hcap : d.getCapabilities = .ok cap) (hfm : cap.facingMode = some facingMode)
    (henv : "environment" ∉ facingMode) : candidateWidth d = none := by
  unfold candidateWidth envWidth
  rw [hcap]
  simp only [hfm]
  cases cap.width <;> simp [henv]

theorem initCamera_search_ok (p : Platform) (self : Webcam) (constraints : JsValue)
    (md : MediaDevices) (getUserMedia : JsValue → Settled MediaStream)
    (ds : List MediaDeviceInfo) (st : Nat × Option String)
    (h1 : p.mediaDevices = some md) (h2 : md.getUserMedia = some getUserMedia)
    (h3 : md.enumerateDevices = .resolved ds)
    (h4 : scoreDevices p (usefulDevices ds) (0, none) = .ok st) :
    initCamera p self constraints true
      = { duringConstruction := [.enumerateDevices],
          afterConstruction :=
            .getUserMedia (overrideConstraints constraints st.2)
              :: afterGetUserMedia p self (getUserMedia (overrideConstraints constraints st.2)) } := by
  simp [initCamera, h1, h2, h3, h4]

theorem initCamera_search_error (p : Platform) (self : Webcam) (constraints : JsValue)
    (md : MediaDevices) (getUserMedia : JsValue → Settled MediaStream)
    (ds : List MediaDeviceInfo) (e : JsError)
    (h1 : p.mediaDevices = some md) (h2 : md.getUserMedia = some getUserMedia)
    (h3 : md.enumerateDevices = .resolved ds)
    (h4 : scoreDevices p (usefulDevices ds) (0, none) = .error e) :
    initCamera p self constraints true
      = { duringConstruction := [.enumerateDevices], afterConstruction := [emitError e] } := by
  simp [initCamera, h1, h2, h3, h4]

theorem getUserMediaCalls_search_ok (p : Platform) (self : Webcam) (c : JsValue)
    (r : Settled MediaStream) :
    getUserMediaCalls
      (Timeline.effects { duringConstruction := [.enumerateDevices],
                          afterConstruction := .getUserMedia c :: afterGetUserMedia p self r })
      = [c] := by
  have h := getUserMediaCalls_afterGetUserMedia p self r
  simp only [Timeline.effects, getUserMediaCalls, List.filterMap_append, List.filterMap_cons,
    Effect.getUserMediaArg] at h ⊢
  rw [h]; rfl

/-! ## Device search -/

/-- Counterexample to C1 as stated: a list whose only device is a candidate
with width.max 0 leaves the constraints of the caller in place, and a list
with a candidate followed by a device without facingMode never reaches
getUserMedia. -/
theorem initCamera_candidate_not_requested :
    (candidateWidth (camera "rear" ["environment"] 0) = some 0
      ∧ getUserMediaCalls
          (initCamera (browser [camera "rear" ["environment"] 0] grant [])
            sampleWebcam defaultConstraints true).effects = [defaultConstraints]
      ∧ defaultConstraints ≠ exactDevice "rear")
    ∧ (candidateWidth (camera "rear" ["environment"] 1920) = some 1920
      ∧ getUserMediaCalls
          (initCamera (browser [camera "rear" ["environment"] 1920, bareCamera "front"] grant [])
            sampleWebcam defaultConstraints true).effects = []) := by
  refine ⟨⟨by decide, ?_, ?_⟩, by decide, ?_⟩
  · rfl
  · simp [defaultConstraints, exactDevice]
  · rfl

theorem scoreDevices_selects (p : Platform) (ds : List MediaDeviceInfo)
    (hsafe : ∀ d ∈ ds, d.kind = "videoinput" → inspectionThrows d = false)
    (hcand : ∃ d ∈ ds, ∃ w, candidateWidth d = some w ∧ 0 < w) :
    ∃ pre d post w, usefulDevices ds = pre ++ d :: post
      ∧ candidateWidth d = some w
      ∧ (∀ c ∈ ds, ∀ v, candidateWidth c = some v → v ≤ w)
      ∧ (∀ c ∈ pre, ∀ v, candidateWidth c = some v → v < w)
      ∧ scoreDevices p (usefulDevices ds) (0, none) = .ok (w, some d.deviceId) := by
  have hsafe2 : ∀ d ∈ usefulDevices ds, inspectionThrows d = false := by
    intro d hd
    have := (mem_usefulDevices ds d).1 hd
    exact hsafe d this.1 this.2
  obtain ⟨st1, hrun, _, hall, hsel⟩ := scoreDevices_of_not_throws p (usefulDevices ds) (0, none) hsafe2
  have hall2 : ∀ c ∈ ds, ∀ v, candidateWidth c = some v → v ≤ st1.1 := by
    intro c hc v hv
    have hk := kind_of_candidateWidth c v hv
    exact hall c ((mem_usefulDevices ds c).2 ⟨hc, hk.1⟩) v hk.2
  rcases hsel with heq | ⟨_, pre, d, post, hsplit, henv, hid, hpre⟩
  · obtain ⟨d, hd, w, hw, hpos⟩ := hcand
    have := hall2 d hd w hw
    rw [heq] at this
    simp only at this
    omega
  · have hdmem : d ∈ usefulDevices ds := by rw [hsplit]; simp
    have hdk := ((mem_usefulDevices ds d).1 hdmem).2
    refine ⟨pre, d, post, st1.1, hsplit, ?_, hall2, ?_, ?_⟩
    · rw [candidateWidth_of_useful d hdk]; exact henv
    · intro c hc v hv
      exact hpre c hc v (kind_of_candidateWidth c v hv).2
    · rw [hrun, ← hid]

/-- C1 (amended): with findMaxWidthDevice true, when no video input throws
while its capabilities are inspected and some candidate has a width.max
above 0, getUserMedia is called exactly once, with the object that sets
video.deviceId.exact to the deviceId of a candidate whose width.max is at
least that of every candidate, whatever constraints the caller passed. -/
theorem initCamera_requests_widest_candidate (p : Platform) (self : Webcam)
    (constraints : JsValue) (md : MediaDevices) (getUserMedia : JsValue → Settled MediaStream)
    (ds : List MediaDeviceInfo)
    (h1 : p.mediaDevices = some md) (h2 : md.getUserMedia = some getUserMedia)
    (h3 : md.enumerateDevices = .resolved ds)
    (hsafe : ∀ d ∈ ds, d.kind = "videoinput" → inspectionThrows d = false)
    (hcand : ∃ d ∈ ds, ∃ w, candidateWidth d = some w ∧ 0 < w) :
    ∃ d ∈ ds, ∃ w, candidateWidth d = some w
      ∧ (∀ c ∈ ds, ∀ v, candidateWidth c = some v → v ≤ w)
      ∧ getUserMediaCalls (initCamera p self constraints true).effects
          = [JsValue.obj [("video", JsValue.obj [("deviceId",
              JsValue.obj [("exact", JsValue.str d.deviceId)])])]] := by
  obtain ⟨pre, d, post, w, hsplit, hw, hmax, _, hrun⟩ := scoreDevices_selects p ds hsafe hcand
  have hdmem : d ∈ usefulDevices ds := by rw [hsplit]; simp
  refine ⟨d, ((mem_usefulDevices ds d).1 hdmem).1, w, hw, hmax, ?_⟩
  rw [initCamera_search_ok p self constraints md getUserMedia ds _ h1 h2 h3 hrun]
  exact getUserMediaCalls_search_ok p self _ _

/-- Witness of the amended C1 on the two cameras of the spec scenario:
widths 1920 and 3840, the second also facing the user. -/
theorem initCamera_requests_widest_candidate_witness :
    ∃ d ∈ [camera "id1" ["environment"] 1920, camera "id2" ["environment", "user"] 3840],
      ∃ w, candidateWidth d = some w
      ∧ (∀ c ∈ [camera "id1" ["environment"] 1920, camera "id2" ["environment", "user"] 3840],
          ∀ v, candidateWidth c = some v → v ≤ w)
      ∧ getUserMediaCalls
          (initCamera
            (browser [camera "id1" ["environment"] 1920,
                      camera "id2" ["environment", "user"] 3840] grant [(1280, 720)])
            sampleWebcam defaultConstraints true).effects
          = [JsValue.obj [("video", JsValue.obj [("deviceId",
              JsValue.obj [("exact", JsValue.str d.deviceId)])])]] :=
  initCamera_requests_widest_candidate _ sampleWebcam defaultConstraints _ grant _ rfl rfl rfl
    (by intro d hd _
        simp only [List.mem_cons, List.mem_singleton, List.not_mem_nil, or_false] at hd
        rcases hd with hd | hd <;> subst hd <;> decide)
    ⟨camera "id2" ["environment", "user"] 3840, by simp, 3840, by decide, by decide⟩

/-- The scenario of the spec evaluated: the second camera (3840) is requested. -/
theorem initCamera_spec_scenario_selects_second :
    getUserMediaCalls
        (initCamera
          (browser [camera "id1" ["environment"] 1920,
                    camera "id2" ["environment", "user"] 3840] grant [(1280, 720)])
          sampleWebcam defaultConstraints true).effects
      = [exactDevice "id2"] := by
  rfl

/-- Counterexample to C6 as stated: the only device is a video input whose
capabilities have no facingMode, so no device reports "environment" and no
device is a candidate; yet getUserMedia is never called and webcamerror is
emitted with the TypeError of the scoring loop. -/
theorem initCamera_no_candidate_but_no_request :
    candidateWidth (bareCamera "front") = none
      ∧ getUserMediaCalls
          (initCamera (browser [bareCamera "front"] grant [(1280, 720)])
            sampleWebcam defaultConstraints true).effects = []
      ∧ emitted "webcamerror"
          (initCamera (browser [bareCamera "front"] grant [(1280, 720)])
            sampleWebcam defaultConstraints true).effects
          = [Payload.error "TypeError" (engineMessage "indexOf")] := by
  refine ⟨by decide, rfl, ?_⟩
  decide

/-- C6 (amended): with findMaxWidthDevice true, when no video input throws
while its capabilities are inspected and no device is a candidate,
getUserMedia is called exactly once, with the constraints of the caller
unchanged. -/
theorem initCamera_no_candidate_keeps_constraints (p : Platform) (self : Webcam)
    (constraints : JsValue) (md : MediaDevices) (getUserMedia : JsValue → Settled MediaStream)
    (ds : List MediaDeviceInfo)
    (h1 : p.mediaDevices = some md) (h2 : md.getUserMedia = some getUserMedia)
    (h3 : md.enumerateDevices = .resolved ds)
    (hsafe : ∀ d ∈ ds, d.kind = "videoinput" → inspectionThrows d = false)
    (hnone : ∀ d ∈ ds, candidateWidth d = none) :
    getUserMediaCalls (initCamera p self constraints true).effects = [constraints] := by
  have hsafe2 : ∀ d ∈ usefulDevices ds, inspectionThrows d = false := by
    intro d hd
    have := (mem_usefulDevices ds d).1 hd
    exact hsafe d this.1 this.2
  obtain ⟨st1, hrun, _, _, hsel⟩ :=
    scoreDevices_of_not_throws p (usefulDevices ds) (0, none) hsafe2
  have hst : st1 = (0, none) := by
    rcases hsel with heq | ⟨_, pre, d, post, hsplit, henv, _, _⟩
    · exact heq
    · exfalso
      have hdmem : d ∈ usefulDevices ds := by rw [hsplit]; simp
      have hd := (mem_usefulDevices ds d).1 hdmem
      have := hnone d hd.1
      rw [candidateWidth_of_useful d hd.2, henv] at this
      cases this
  rw [initCamera_search_ok p self constraints md getUserMedia ds st1 h1 h2 h3 hrun, hst]
  exact getUserMediaCalls_search_ok p self _ _

/-- Witness of the amended C6: a front camera and a microphone, neither a
candidate. -/
theorem initCamera_no_candidate_keeps_constraints_witness :
    getUserMediaCalls
        (initCamera (browser [camera "front" ["user"] 1280, microphone "mic"] grant [(640, 480)])
          sampleWebcam defaultConstraints true).effects
      = [defaultConstraints] :=
  initCamera_no_candidate_keeps_constraints _ sampleWebcam defaultConstraints _ grant _
    rfl rfl rfl
    (by intro d hd hk
        simp only [List.mem_cons, List.mem_singleton, List.not_mem_nil, or_false] at hd
        rcases hd with hd | hd
        · subst hd; decide
        · subst hd; exact absurd hk (by decide))
    (by intro d hd
        simp only [List.mem_cons, List.mem_singleton, List.not_mem_nil, or_false] at hd
        rcases hd with hd | hd <;> subst hd <;> decide)

/-- Counterexample to C7 as stated: two candidates share the greatest
width.max, 0, and the loop ends with no deviceId selected rather than with
the deviceId of the first. -/
theorem scoreDevices_zero_width_tie_selects_none :
    candidateWidth (camera "a" ["environment"] 0) = some 0
      ∧ candidateWidth (camera "b" ["environment"] 0) = some 0
      ∧ scoreDevices (browser [] grant [])
          (usefulDevices [camera "a" ["environment"] 0, camera "b" ["environment"] 0])
          (0, none) = .ok (0, none) := by
  refine ⟨by decide, by decide, rfl⟩

theorem inspectionThrows_of_scoreStep_ok (p : Platform) (st st1 : Nat × Option String)
    (d : MediaDeviceInfo) (h : scoreStep p st d = .ok st1) : inspectionThrows d = false := by
  cases ht : inspectionThrows d with
  | false => rfl
  | true =>
    obtain ⟨e, he⟩ := scoreStep_of_throws p st d ht
    rw [he] at h
    cases h

/-- C7 (amended): when no video input throws while its capabilities are
inspected and the greatest width.max among the candidates is above 0, the
loop ends with the deviceId of the first candidate, in enumeration order,
that has this greatest width.max; and one run of the callback changes the
current best only for a device whose width.max is strictly greater than the
current maxWidth, never for an equal or lower one. -/
theorem scoreDevices_first_widest_wins (p : Platform) (ds : List MediaDeviceInfo)
    (hsafe : ∀ d ∈ ds, d.kind = "videoinput" → inspectionThrows d = false)
    (hcand : ∃ d ∈ ds, ∃ w, candidateWidth d = some w ∧ 0 < w) :
    (∃ pre d post w, usefulDevices ds = pre ++ d :: post
      ∧ candidateWidth d = some w
      ∧ (∀ c ∈ ds, ∀ v, candidateWidth c = some v → v ≤ w)
      ∧ (∀ c ∈ pre, ∀ v, candidateWidth c = some v → v < w)
      ∧ scoreDevices p (usefulDevices ds) (0, none) = .ok (w, some d.deviceId))
    ∧ (∀ (st st1 : Nat × Option String) (d : MediaDeviceInfo),
        scoreStep p st d = .ok st1 → st1 ≠ st →
          ∃ w, envWidth d = some w ∧ st.1 < w ∧ st1 = (w, some d.deviceId))
    ∧ (∀ (st : Nat × Option String) (d : MediaDeviceInfo) (w : Nat),
        inspectionThrows d = false → envWidth d = some w → w ≤ st.1 →
          scoreStep p st d = .ok st) := by
  refine ⟨scoreDevices_selects p ds hsafe hcand, ?_, ?_⟩
  · intro st st1 d hstep hne
    have hnt := inspectionThrows_of_scoreStep_ok p st st1 d hstep
    rw [scoreStep_of_not_throws p st d hnt] at hstep
    have hst1 : advance st d = st1 := Except.ok.inj hstep
    rcases advance_cases st d with hadv | ⟨hlt, henv, hid⟩
    · exact absurd (hst1.symm.trans hadv) hne
    · refine ⟨(advance st d).1, henv, hlt, ?_⟩
      rw [← hst1, ← hid]
  · intro st d w hnt hw hle
    rw [scoreStep_of_not_throws p st d hnt]
    have : advance st d = st := by
      unfold advance
      rw [hw]
      simp only
      rw [if_neg (by omega)]
    rw [this]

/-- Witness of the amended C7: three rear cameras of widths 1920, 3840, 3840;
the first of the two widest wins. -/
theorem scoreDevices_first_widest_wins_witness :
    (∃ pre d post w,
        usefulDevices [camera "a" ["environment"] 1920, camera "b" ["environment"] 3840,
          camera "c" ["environment"] 3840] = pre ++ d :: post
      ∧ candidateWidth d = some w
      ∧ (∀ c ∈ [camera "a" ["environment"] 1920, camera "b" ["environment"] 3840,
          camera "c" ["environment"] 3840], ∀ v, candidateWidth c = some v → v ≤ w)
      ∧ (∀ c ∈ pre, ∀ v, candidateWidth c = some v → v < w)
      ∧ scoreDevices (browser [] grant [])
          (usefulDevices [camera "a" ["environment"] 1920, camera "b" ["environment"] 3840,
            camera "c" ["environment"] 3840]) (0, none) = .ok (w, some d.deviceId))
    ∧ (∀ (st st1 : Nat × Option String) (d : MediaDeviceInfo),
        scoreStep (browser [] grant []) st d = .ok st1 → st1 ≠ st →
          ∃ w, envWidth d = some w ∧ st.1 < w ∧ st1 = (w, some d.deviceId))
    ∧ (∀ (st : Nat × Option String) (d : MediaDeviceInfo) (w : Nat),
        inspectionThrows d = false → envWidth d = some w → w ≤ st.1 →
          scoreStep (browser [] grant []) st d = .ok st) :=
  scoreDevices_first_widest_wins (browser [] grant []) _
    (by intro d hd _
        simp only [List.mem_cons, List.mem_singleton, List.not_mem_nil, or_false] at hd
        rcases hd with hd | hd | hd <;> subst hd <;> decide)
    ⟨camera "b" ["environment"] 3840, by simp, 3840, by decide, by decide⟩

/-- The tie of the witness evaluated: b, not c, is selected. -/
theorem scoreDevices_tie_keeps_first :
    scoreDevices (browser [] grant [])
        (usefulDevices [camera "a" ["environment"] 1920, camera "b" ["environment"] 3840,
          camera "c" ["environment"] 3840]) (0, none) = .ok (3840, some "b") := by
  rfl

/-! ## Exceptions in the scoring loop -/

/-- C10: with findMaxWidthDevice true, when some video input of the enumerated
list has capabilities without facingMode, or with "environment" in facingMode
and no width, the scoring loop throws; after the call of enumerateDevices the
only effect is the emit of webcamerror with the name and message of that
exception, and getUserMedia is never called, whatever devices came earlier in
the list. -/
theorem initCamera_scoring_exception_aborts (p : Platform) (self : Webcam)
    (constraints : JsValue) (md : MediaDevices) (getUserMedia : JsValue → Settled MediaStream)
    (ds : List MediaDeviceInfo)
    (h1 : p.mediaDevices = some md) (h2 : md.getUserMedia = some getUserMedia)
    (h3 : md.enumerateDevices = .resolved ds)
    (hbad : ∃ d ∈ ds, d.kind = "videoinput" ∧ lacksScoredField d = true) :
    ∃ e, scoreDevices p (usefulDevices ds) (0, none) = .error e
      ∧ (initCamera p self constraints true).effects
          = [Effect.enumerateDevices, Effect.emit "webcamerror" (Payload.error e.name e.message)]
      ∧ getUserMediaCalls (initCamera p self constraints true).effects = []
      ∧ emitted "webcamerror" (initCamera p self constraints true).effects
          = [Payload.error e.name e.message]
      ∧ emitted "webcamstarted" (initCamera p self constraints true).effects = [] := by
  obtain ⟨d, hd, hk, hl⟩ := hbad
  have hthrows : inspectionThrows d = true := by
    unfold inspectionThrows
    unfold lacksScoredField at hl
    cases hc : d.getCapabilities with
    | error e => simp [hc] at hl
    | ok cap =>
      simp only
      unfold lacksScoredField
      rw [hc] at hl ⊢
      exact hl
  obtain ⟨e, he⟩ := scoreDevices_of_throws p (usefulDevices ds) (0, none)
    ⟨d, (mem_usefulDevices ds d).2 ⟨hd, hk⟩, hthrows⟩
  refine ⟨e, he, ?_⟩
  rw [initCamera_search_error p self constraints md getUserMedia ds e h1 h2 h3 he]
  refine ⟨rfl, rfl, ?_, ?_⟩
  · simp [Timeline.effects, emitted, Effect.emittedAs, emitError]
  · simp [Timeline.effects, emitted, Effect.emittedAs, emitError]

/-- Witness of C10: a valid candidate first, then a video input whose
capabilities have no fields. -/
theorem initCamera_scoring_exception_aborts_witness :
    ∃ e, scoreDevices (browser [camera "rear" ["environment"] 1920, bareCamera "front"] grant [])
          (usefulDevices [camera "rear" ["environment"] 1920, bareCamera "front"]) (0, none)
          = .error e
      ∧ (initCamera (browser [camera "rear" ["environment"] 1920, bareCamera "front"] grant [])
            sampleWebcam defaultConstraints true).effects
          = [Effect.enumerateDevices, Effect.emit "webcamerror" (Payload.error e.name e.message)]
      ∧ getUserMediaCalls
          (initCamera (browser [camera "rear" ["environment"] 1920, bareCamera "front"] grant [])
            sampleWebcam defaultConstraints true).effects = []
      ∧ emitted "webcamerror"
          (initCamera (browser [camera "rear" ["environment"] 1920, bareCamera "front"] grant [])
            sampleWebcam defaultConstraints true).effects
          = [Payload.error e.name e.message]
      ∧ emitted "webcamstarted"
          (initCamera (browser [camera "rear" ["environment"] 1920, bareCamera "front"] grant [])
            sampleWebcam defaultConstraints true).effects = [] :=
  initCamera_scoring_exception_aborts _ sampleWebcam defaultConstraints _ grant _ rfl rfl rfl
    ⟨bareCamera "front", by simp, by decide, by decide⟩

/-- The witness evaluated: the exception is the TypeError of reading indexOf. -/
theorem initCamera_scoring_exception_is_type_error :
    (initCamera (browser [camera "rear" ["environment"] 1920, bareCamera "front"] grant [])
        sampleWebcam defaultConstraints true).effects
      = [Effect.enumerateDevices,
         Effect.emit "webcamerror" (Payload.error "TypeError" (engineMessage "indexOf"))] := by
  rfl

/-! ## Lemmas: the shape of a run -/

theorem emitted_error_afterGetUserMedia (p : Platform) (self : Webcam)
    (r : Settled MediaStream) :
    emitted "webcamerror" (afterGetUserMedia p self r)
      = match r with
        | .rejected e => [Payload.error e.name e.message]
        | _ => [] := by
  cases r with
  | pending => rfl
  | rejected e => simp [afterGetUserMedia, emitted, Effect.emittedAs, emitError]
  | resolved s =>
    have h := emitted_error_flatten_onLoaded self p.loadedmetadata
    simp only [afterGetUserMedia, emitted, List.filterMap_append] at h ⊢
    rw [h]; rfl

theorem emitted_started_afterGetUserMedia (p : Platform) (self : Webcam)
    (r : Settled MediaStream) :
    emitted "webcamstarted" (afterGetUserMedia p self r)
      = match r with
        | .resolved _ => List.replicate p.loadedmetadata.length (Payload.started self.texture)
        | _ => [] := by
  cases r with
  | pending => rfl
  | rejected e => simp [afterGetUserMedia, emitted, Effect.emittedAs, emitError]
  | resolved s =>
    have h := emitted_started_flatten_onLoaded self p.loadedmetadata
    simp only [afterGetUserMedia, emitted, List.filterMap_append] at h ⊢
    rw [h]; rfl

theorem attachedStreams_afterGetUserMedia (p : Platform) (self : Webcam)
    (r : Settled MediaStream) :
    attachedStreams (afterGetUserMedia p self r)
      = match r with
        | .resolved s => [s]
        | _ => [] := by
  cases r with
  | pending => rfl
  | rejected e => rfl
  | resolved s =>
    have h := attachedStreams_flatten_onLoaded self p.loadedmetadata
    simp only [afterGetUserMedia, attachedStreams, List.filterMap_append] at h ⊢
    rw [h]; rfl

/-- With the capture API present a run is one of: a request (possibly after
enumerateDevices) followed by what the settled request brings; an
enumerateDevices that never settles; an enumerateDevices followed by the emit
of the exception caught. -/
theorem initCamera_shape (p : Platform) (self : Webcam) (constraints : JsValue)
    (findMaxWidthDevice : Bool) (md : MediaDevices)
    (getUserMedia : JsValue → Settled MediaStream)
    (h1 : p.mediaDevices = some md) (h2 : md.getUserMedia = some getUserMedia) :
    (∃ pre c1, (pre = [] ∨ pre = [Effect.enumerateDevices])
        ∧ (initCamera p self constraints findMaxWidthDevice).effects
            = pre ++ Effect.getUserMedia c1 :: afterGetUserMedia p self (getUserMedia c1))
      ∨ ((initCamera p self constraints findMaxWidthDevice).effects = [Effect.enumerateDevices]
          ∧ md.enumerateDevices.isSettled = false)
      ∨ (∃ e, (initCamera p self constraints findMaxWidthDevice).effects
          = [Effect.enumerateDevices, emitError e]) := by
  cases findMaxWidthDevice with
  | false =>
    left
    exact ⟨[], constraints, Or.inl rfl, by simp [initCamera, h1, h2, Timeline.effects]⟩
  | true =>
    cases h3 : md.enumerateDevices with
    | pending =>
      right; left
      exact ⟨by simp [initCamera, h1, h2, h3, Timeline.effects], rfl⟩
    | rejected e =>
      right; right
      exact ⟨e, by simp [initCamera, h1, h2, h3, Timeline.effects]⟩
    | resolved ds =>
      cases h4 : scoreDevices p (usefulDevices ds) (0, none) with
      | error e =>
        right; right
        exact ⟨e, by simp [initCamera, h1, h2, h3, h4, Timeline.effects]⟩
      | ok st =>
        left
        exact ⟨[.enumerateDevices], overrideConstraints constraints st.2, Or.inr rfl,
          by simp [initCamera, h1, h2, h3, h4, Timeline.effects]⟩

theorem construct_effects (p : Platform) (constraints : JsValue)
    (videoElementSelector : Option String) (findMaxWidthDevice : Bool) :
    (construct p constraints videoElementSelector findMaxWidthDevice).2.effects
      = constructorPrologue videoElementSelector
          ++ (initCamera p { texture := p.newVideoTexture } constraints
                findMaxWidthDevice).effects := by
  simp [construct, Timeline.effects]

theorem emitted_prologue (event : String) (videoElementSelector : Option String) :
    emitted event (constructorPrologue videoElementSelector) = [] := by
  unfold constructorPrologue
  cases selectorFalsy videoElementSelector <;> simp [emitted, Effect.emittedAs]

theorem getUserMediaCalls_prologue (videoElementSelector : Option String) :
    getUserMediaCalls (constructorPrologue videoElementSelector) = [] := by
  unfold constructorPrologue
  cases selectorFalsy videoElementSelector <;> simp [getUserMediaCalls, Effect.getUserMediaArg]

theorem attachedStreams_prologue (videoElementSelector : Option String) :
    attachedStreams (constructorPrologue videoElementSelector) = [] := by
  unfold constructorPrologue
  cases selectorFalsy videoElementSelector <;> simp [attachedStreams, Effect.attached]

theorem emitted_append (event : String) (xs ys : List Effect) :
    emitted event (xs ++ ys) = emitted event xs ++ emitted event ys := by
  simp [emitted]

theorem getUserMediaCalls_append (xs ys : List Effect) :
    getUserMediaCalls (xs ++ ys) = getUserMediaCalls xs ++ getUserMediaCalls ys := by
  simp [getUserMediaCalls]

theorem attachedStreams_append (xs ys : List Effect) :
    attachedStreams (xs ++ ys) = attachedStreams xs ++ attachedStreams ys := by
  simp [attachedStreams]

theorem emitted_getUserMedia_cons (event : String) (c : JsValue) (es : List Effect) :
    emitted event (Effect.getUserMedia c :: es) = emitted event es := by
  simp [emitted, Effect.emittedAs]

theorem attachedStreams_getUserMedia_cons (c : JsValue) (es : List Effect) :
    attachedStreams (Effect.getUserMedia c :: es) = attachedStreams es := by
  simp [attachedStreams, Effect.attached]

/-- With the capture API present, the effects of a construction are: some
effects without request, attachment or emit, then the one request and what
its settlement brings; or they end at an enumerateDevices that never settles;
or they end with the emit of an exception caught before any request. -/
theorem construct_shape (p : Platform) (constraints : JsValue)
    (videoElementSelector : Option String) (findMaxWidthDevice : Bool) (md : MediaDevices)
    (getUserMedia : JsValue → Settled MediaStream)
    (h1 : p.mediaDevices = some md) (h2 : md.getUserMedia = some getUserMedia) :
    (∃ pre c1, getUserMediaCalls pre = [] ∧ attachedStreams pre = []
        ∧ (∀ event, emitted event pre = [])
        ∧ (construct p constraints videoElementSelector findMaxWidthDevice).2.effects
            = pre ++ Effect.getUserMedia c1
                :: afterGetUserMedia p { texture := p.newVideoTexture } (getUserMedia c1))
      ∨ ((construct p constraints videoElementSelector findMaxWidthDevice).2.effects
            = constructorPrologue videoElementSelector ++ [Effect.enumerateDevices]
          ∧ md.enumerateDevices.isSettled = false)
      ∨ (∃ e, (construct p constraints videoElementSelector findMaxWidthDevice).2.effects
          = constructorPrologue videoElementSelector ++ [Effect.enumerateDevices, emitError e]) := by
  rw [construct_effects]
  rcases initCamera_shape p { texture := p.newVideoTexture } constraints findMaxWidthDevice md
      getUserMedia h1 h2 with ⟨pre, c1, hpre, heff⟩ | ⟨heff, hpend⟩ | ⟨e, heff⟩
  · left
    refine ⟨constructorPrologue videoElementSelector ++ pre, c1, ?_, ?_, ?_, ?_⟩
    · rw [getUserMediaCalls_append, getUserMediaCalls_prologue]
      rcases hpre with h | h <;> subst h <;> rfl
    · rw [attachedStreams_append, attachedStreams_prologue]
      rcases hpre with h | h <;> subst h <;> rfl
    · intro event
      rw [emitted_append, emitted_prologue]
      rcases hpre with h | h <;> subst h <;> rfl
    · rw [heff, List.append_assoc]
  · right; left
    exact ⟨by rw [heff], hpend⟩
  · right; right
    exact ⟨e, by rw [heff]⟩

/-- Every construction ends in one of three ways: a single webcamerror and
nothing else; no event at all, some awaited promise never settling; a stream
attached and one webcamstarted, carrying the texture of the instance, for each
loadedmetadata notification. -/
theorem construct_outcome (p : Platform) (constraints : JsValue)
    (videoElementSelector : Option String) (findMaxWidthDevice : Bool) :
    (∃ x, emitted "webcamerror"
            (construct p constraints videoElementSelector findMaxWidthDevice).2.effects = [x]
        ∧ emitted "webcamstarted"
            (construct p constraints videoElementSelector findMaxWidthDevice).2.effects = []
        ∧ attachedStreams
            (construct p constraints videoElementSelector findMaxWidthDevice).2.effects = [])
      ∨ (emitted "webcamerror"
            (construct p constraints videoElementSelector findMaxWidthDevice).2.effects = []
        ∧ emitted "webcamstarted"
            (construct p constraints videoElementSelector findMaxWidthDevice).2.effects = []
        ∧ attachedStreams
            (construct p constraints videoElementSelector findMaxWidthDevice).2.effects = []
        ∧ ¬ p.settles)
      ∨ (∃ s, emitted "webcamerror"
            (construct p constraints videoElementSelector findMaxWidthDevice).2.effects = []
        ∧ emitted "webcamstarted"
            (construct p constraints videoElementSelector findMaxWidthDevice).2.effects
            = List.replicate p.loadedmetadata.length (Payload.started p.newVideoTexture)
        ∧ attachedStreams
            (construct p constraints videoElementSelector findMaxWidthDevice).2.effects = [s]) := by
  cases h1 : p.mediaDevices with
  | none =>
    left
    refine ⟨Payload.error "LOCAR_NO_MEDIA_DEVICES_API" "Media devices API not supported", ?_⟩
    rw [construct_effects]
    have key : initCamera p { texture := p.newVideoTexture } constraints findMaxWidthDevice
        = { duringConstruction := [noMediaDevicesError], afterConstruction := [] } := by
      simp only [initCamera, h1]
    rw [key]
    refine ⟨?_, ?_, ?_⟩
    · rw [emitted_append, emitted_prologue]
      simp [Timeline.effects, noMediaDevicesError, emitted, Effect.emittedAs]
    · rw [emitted_append, emitted_prologue]
      simp [Timeline.effects, noMediaDevicesError, emitted, Effect.emittedAs]
    · rw [attachedStreams_append, attachedStreams_prologue]
      rfl
  | some md =>
    cases h2 : md.getUserMedia with
    | none =>
      left
      refine ⟨Payload.error "LOCAR_NO_MEDIA_DEVICES_API" "Media devices API not supported", ?_⟩
      rw [construct_effects]
      have key : initCamera p { texture := p.newVideoTexture } constraints findMaxWidthDevice
          = { duringConstruction := [noMediaDevicesError], afterConstruction := [] } := by
        simp only [initCamera, h1, h2]
      rw [key]
      refine ⟨?_, ?_, ?_⟩
      · rw [emitted_append, emitted_prologue]
        simp [Timeline.effects, noMediaDevicesError, emitted, Effect.emittedAs]
      · rw [emitted_append, emitted_prologue]
        simp [Timeline.effects, noMediaDevicesError, emitted, Effect.emittedAs]
      · rw [attachedStreams_append, attachedStreams_prologue]
        rfl
    | some getUserMedia =>
      rcases construct_shape p constraints videoElementSelector findMaxWidthDevice md
          getUserMedia h1 h2 with ⟨pre, c1, _, hatt, hem, heff⟩ | ⟨heff, hpend⟩ | ⟨e, heff⟩
      · rw [heff]
        simp only [emitted_append, attachedStreams_append, hem, hatt, List.nil_append,
          emitted_getUserMedia_cons, attachedStreams_getUserMedia_cons,
          emitted_error_afterGetUserMedia, emitted_started_afterGetUserMedia,
          attachedStreams_afterGetUserMedia]
        cases hr : getUserMedia c1 with
        | resolved s => right; right; exact ⟨s, rfl, rfl, rfl⟩
        | rejected e => left; exact ⟨Payload.error e.name e.message, rfl, rfl, rfl⟩
        | pending =>
          right; left
          refine ⟨rfl, rfl, rfl, ?_⟩
          intro hs
          have := (hs md h1).2 getUserMedia h2 c1
          rw [hr] at this
          cases this
      · right; left
        rw [heff]
        refine ⟨?_, ?_, ?_, ?_⟩
        · rw [emitted_append, emitted_prologue]; rfl
        · rw [emitted_append, emitted_prologue]; rfl
        · rw [attachedStreams_append, attachedStreams_prologue]; rfl
        · intro hs
          have := (hs md h1).1
          rw [hpend] at this
          cases this
      · left
        rw [heff]
        refine ⟨Payload.error e.name e.message, ?_, ?_, ?_⟩
        · rw [emitted_append, emitted_prologue]
          simp [emitError, emitted, Effect.emittedAs]
        · rw [emitted_append, emitted_prologue]
          simp [emitError, emitted, Effect.emittedAs]
        · rw [attachedStreams_append, attachedStreams_prologue]; rfl

/-! ## Events per instance -/

/-- Counterexample to C3 as stated: with two loadedmetadata notifications
webcamstarted is emitted twice, and with none no event is emitted at all. -/
theorem construct_started_twice_or_never :
    emitted "webcamstarted"
        (construct (browser [] grant [(1280, 720), (1280, 720)])
          defaultConstraints none false).2.effects
        = [Payload.started { id := 7 }, Payload.started { id := 7 }]
      ∧ emitted "webcamstarted"
          (construct (browser [] grant []) defaultConstraints none false).2.effects = []
      ∧ emitted "webcamerror"
          (construct (browser [] grant []) defaultConstraints none false).2.effects = [] := by
  refine ⟨?_, ?_, ?_⟩ <;> decide

/-- C3 (amended): for every construction and every platform, webcamerror is
emitted at most once and never together with webcamstarted; webcamstarted is
emitted once for each loadedmetadata notification of an attached stream, and
at most one stream is attached; so when every awaited promise settles and the
video element notifies exactly once, exactly one of the two events is emitted,
exactly once. -/
theorem construct_event_discipline (p : Platform) (constraints : JsValue)
    (videoElementSelector : Option String) (findMaxWidthDevice : Bool) :
    (emitted "webcamerror"
        (construct p constraints videoElementSelector findMaxWidthDevice).2.effects).length ≤ 1
      ∧ (emitted "webcamerror"
          (construct p constraints videoElementSelector findMaxWidthDevice).2.effects ≠ [] →
        emitted "webcamstarted"
          (construct p constraints videoElementSelector findMaxWidthDevice).2.effects = [])
      ∧ (attachedStreams
          (construct p constraints videoElementSelector findMaxWidthDevice).2.effects).length ≤ 1
      ∧ emitted "webcamstarted"
          (construct p constraints videoElementSelector findMaxWidthDevice).2.effects
        = List.replicate
            ((attachedStreams
                (construct p constraints videoElementSelector
                  findMaxWidthDevice).2.effects).length * p.loadedmetadata.length)
            (Payload.started p.newVideoTexture)
      ∧ (p.settles → p.loadedmetadata.length = 1 →
          (emitted "webcamerror"
            (construct p constraints videoElementSelector findMaxWidthDevice).2.effects).length
          + (emitted "webcamstarted"
            (construct p constraints videoElementSelector findMaxWidthDevice).2.effects).length
          = 1) := by
  rcases construct_outcome p constraints videoElementSelector findMaxWidthDevice with
    ⟨x, he, hs, ha⟩ | ⟨he, hs, ha, hns⟩ | ⟨s, he, hs, ha⟩
  · rw [he, hs, ha]
    refine ⟨by simp, fun _ => rfl, by simp, by simp, fun _ _ => by simp⟩
  · rw [he, hs, ha]
    refine ⟨by simp, fun _ => rfl, by simp, by simp, fun hset _ => absurd hset hns⟩
  · rw [he, hs, ha]
    refine ⟨by simp, fun h => absurd rfl h, by simp, by simp, fun _ hn => by simp [hn]⟩

/-- Witness of the amended C3: a granting browser that notifies once emits
exactly one event. -/
theorem construct_event_discipline_witness :
    (emitted "webcamerror"
        (construct (browser [] grant [(1280, 720)]) defaultConstraints none false).2.effects).length
      + (emitted "webcamstarted"
        (construct (browser [] grant [(1280, 720)]) defaultConstraints none false).2.effects).length
      = 1 :=
  (construct_event_discipline (browser [] grant [(1280, 720)]) defaultConstraints none
      false).2.2.2.2
    (by intro md hmd
        simp only [browser, Option.some.injEq] at hmd
        subst hmd
        refine ⟨rfl, ?_⟩
        intro g hg c
        simp only [Option.some.injEq] at hg
        subst hg
        rfl)
    rfl

/-! ## Acquisition -/

/-- A request that was made is the only one, and the effects end with what its
settlement brings. -/
theorem construct_request (p : Platform) (constraints : JsValue)
    (videoElementSelector : Option String) (findMaxWidthDevice : Bool) (md : MediaDevices)
    (getUserMedia : JsValue → Settled MediaStream) (c1 : JsValue)
    (h1 : p.mediaDevices = some md) (h2 : md.getUserMedia = some getUserMedia)
    (hreq : c1 ∈ getUserMediaCalls
      (construct p constraints videoElementSelector findMaxWidthDevice).2.effects) :
    ∃ pre, getUserMediaCalls pre = [] ∧ attachedStreams pre = []
      ∧ (∀ event, emitted event pre = [])
      ∧ (construct p constraints videoElementSelector findMaxWidthDevice).2.effects
          = pre ++ Effect.getUserMedia c1
              :: afterGetUserMedia p { texture := p.newVideoTexture } (getUserMedia c1) := by
  rcases construct_shape p constraints videoElementSelector findMaxWidthDevice md
      getUserMedia h1 h2 with ⟨pre, c2, hcalls, hatt, hem, heff⟩ | ⟨heff, _⟩ | ⟨e, heff⟩
  · have hc : c1 = c2 := by
      rw [heff, getUserMediaCalls_append, hcalls] at hreq
      have h := getUserMediaCalls_afterGetUserMedia p { texture := p.newVideoTexture }
        (getUserMedia c2)
      simp only [getUserMediaCalls, List.filterMap_cons, Effect.getUserMediaArg,
        List.nil_append] at h hreq
      rw [h] at hreq
      simpa using hreq
    subst hc
    exact ⟨pre, hcalls, hatt, hem, heff⟩
  · exfalso
    rw [heff, getUserMediaCalls_append, getUserMediaCalls_prologue] at hreq
    simp [getUserMediaCalls, Effect.getUserMediaArg] at hreq
  · exfalso
    rw [heff, getUserMediaCalls_append, getUserMediaCalls_prologue] at hreq
    simp [getUserMediaCalls, Effect.getUserMediaArg, emitError] at hreq

/-- C8: when the getUserMedia request of a construction resolves with a
stream, the effects end with: the listener registered, the stream assigned to
srcObject, and for each loadedmetadata notification with intrinsic size (w, h)
the attributes width and height set to w and h, play, and the emit of
webcamstarted whose texture is the one created by the constructor; no
webcamerror is emitted, and a single notification gives a single
webcamstarted. -/
theorem construct_success_binds_video (p : Platform) (constraints : JsValue)
    (videoElementSelector : Option String) (findMaxWidthDevice : Bool) (md : MediaDevices)
    (getUserMedia : JsValue → Settled MediaStream) (c1 : JsValue) (stream : MediaStream)
    (h1 : p.mediaDevices = some md) (h2 : md.getUserMedia = some getUserMedia)
    (hreq : c1 ∈ getUserMediaCalls
      (construct p constraints videoElementSelector findMaxWidthDevice).2.effects)
    (hok : getUserMedia c1 = .resolved stream) :
    (construct p constraints videoElementSelector findMaxWidthDevice).1.texture
        = p.newVideoTexture
      ∧ (∃ pre, attachedStreams pre = [] ∧ (∀ event, emitted event pre = [])
          ∧ (construct p constraints videoElementSelector findMaxWidthDevice).2.effects
            = pre ++ [Effect.getUserMedia c1, Effect.addLoadedMetadataListener,
                      Effect.setSrcObject stream]
                ++ (p.loadedmetadata.map (fun d =>
                      [Effect.setAttribute "width" (JsValue.num d.1),
                       Effect.setAttribute "height" (JsValue.num d.2),
                       Effect.play,
                       Effect.emit "webcamstarted" (Payload.started
                         (construct p constraints videoElementSelector
                           findMaxWidthDevice).1.texture)])).flatten)
      ∧ attachedStreams
          (construct p constraints videoElementSelector findMaxWidthDevice).2.effects = [stream]
      ∧ emitted "webcamstarted"
          (construct p constraints videoElementSelector findMaxWidthDevice).2.effects
          = List.replicate p.loadedmetadata.length (Payload.started
              (construct p constraints videoElementSelector findMaxWidthDevice).1.texture)
      ∧ emitted "webcamerror"
          (construct p constraints videoElementSelector findMaxWidthDevice).2.effects = []
      ∧ (∀ w h : Nat, p.loadedmetadata = [(w, h)] →
          (∃ pre, (construct p constraints videoElementSelector findMaxWidthDevice).2.effects
              = pre ++ [Effect.getUserMedia c1, Effect.addLoadedMetadataListener,
                        Effect.setSrcObject stream,
                        Effect.setAttribute "width" (JsValue.num w),
                        Effect.setAttribute "height" (JsValue.num h),
                        Effect.play,
                        Effect.emit "webcamstarted" (Payload.started p.newVideoTexture)])
          ∧ emitted "webcamstarted"
              (construct p constraints videoElementSelector findMaxWidthDevice).2.effects
              = [Payload.started p.newVideoTexture]) := by
  obtain ⟨pre, _, hatt, hem, heff⟩ := construct_request p constraints videoElementSelector
    findMaxWidthDevice md getUserMedia c1 h1 h2 hreq
  have htex : (construct p constraints videoElementSelector findMaxWidthDevice).1.texture
      = p.newVideoTexture := rfl
  have hstarted : emitted "webcamstarted"
      (construct p constraints videoElementSelector findMaxWidthDevice).2.effects
      = List.replicate p.loadedmetadata.length (Payload.started p.newVideoTexture) := by
    rw [heff, emitted_append, hem, List.nil_append, emitted_getUserMedia_cons,
      emitted_started_afterGetUserMedia, hok]
  refine ⟨htex, ⟨pre, hatt, hem, ?_⟩, ?_, ?_, ?_, ?_⟩
  · rw [heff, hok, htex]
    simp only [afterGetUserMedia, List.append_assoc, List.cons_append, List.nil_append]
    rfl
  · rw [heff, attachedStreams_append, hatt, List.nil_append, attachedStreams_getUserMedia_cons,
      attachedStreams_afterGetUserMedia, hok]
  · rw [htex]; exact hstarted
  · rw [heff, emitted_append, hem, List.nil_append, emitted_getUserMedia_cons,
      emitted_error_afterGetUserMedia, hok]
  · intro w h hmeta
    refine ⟨⟨pre, ?_⟩, ?_⟩
    · rw [heff, hok]
      simp only [afterGetUserMedia, hmeta, List.map_cons, List.map_nil, List.flatten_cons,
        List.flatten_nil, List.append_nil, onLoadedMetadata, List.cons_append, List.nil_append]
    · rw [hstarted, hmeta]; rfl

/-- Witness of C8, the end-to-end scenario of the spec: default constraints, no
device search, a granted request, intrinsic size 1280 x 720. -/
theorem construct_success_binds_video_witness :
    (construct (browser [] grant [(1280, 720)]) defaultConstraints none false).2.effects
        = [Effect.newScene, Effect.createVideo, Effect.newTexture,
           Effect.getUserMedia defaultConstraints, Effect.addLoadedMetadataListener,
           Effect.setSrcObject sampleStream,
           Effect.setAttribute "width" (JsValue.num 1280),
           Effect.setAttribute "height" (JsValue.num 720),
           Effect.play,
           Effect.emit "webcamstarted" (Payload.started
             (construct (browser [] grant [(1280, 720)]) defaultConstraints none false).1.texture)]
      ∧ emitted "webcamstarted"
          (construct (browser [] grant [(1280, 720)]) defaultConstraints none false).2.effects
        = [Payload.started
            (construct (browser [] grant [(1280, 720)]) defaultConstraints none false).1.texture] :=
  ⟨rfl,
   ((construct_success_binds_video (browser [] grant [(1280, 720)]) defaultConstraints none false
      _ grant defaultConstraints sampleStream rfl rfl (List.mem_singleton.2 rfl) rfl).2.2.2.2.2
      1280 720 rfl).2⟩

/-- C9: when the getUserMedia request of a construction is rejected with e,
webcamerror is emitted once with code e.name and message e.message, right
after the request; webcamstarted is not emitted, no stream is assigned to
srcObject, and that request is the only getUserMedia call. -/
theorem construct_failure_reports_platform_error (p : Platform) (constraints : JsValue)
    (videoElementSelector : Option String) (findMaxWidthDevice : Bool) (md : MediaDevices)
    (getUserMedia : JsValue → Settled MediaStream) (c1 : JsValue) (e : JsError)
    (h1 : p.mediaDevices = some md) (h2 : md.getUserMedia = some getUserMedia)
    (hreq : c1 ∈ getUserMediaCalls
      (construct p constraints videoElementSelector findMaxWidthDevice).2.effects)
    (hfail : getUserMedia c1 = .rejected e) :
    emitted "webcamerror"
        (construct p constraints videoElementSelector findMaxWidthDevice).2.effects
        = [Payload.error e.name e.message]
      ∧ emitted "webcamstarted"
          (construct p constraints videoElementSelector findMaxWidthDevice).2.effects = []
      ∧ attachedStreams
          (construct p constraints videoElementSelector findMaxWidthDevice).2.effects = []
      ∧ getUserMediaCalls
          (construct p constraints videoElementSelector findMaxWidthDevice).2.effects = [c1]
      ∧ (∃ pre, (construct p constraints videoElementSelector findMaxWidthDevice).2.effects
          = pre ++ [Effect.getUserMedia c1,
                    Effect.emit "webcamerror" (Payload.error e.name e.message)]) := by
  obtain ⟨pre, hcalls, hatt, hem, heff⟩ := construct_request p constraints videoElementSelector
    findMaxWidthDevice md getUserMedia c1 h1 h2 hreq
  refine ⟨?_, ?_, ?_, ?_, ⟨pre, ?_⟩⟩
  · rw [heff, emitted_append, hem, List.nil_append, emitted_getUserMedia_cons,
      emitted_error_afterGetUserMedia, hfail]
  · rw [heff, emitted_append, hem, List.nil_append, emitted_getUserMedia_cons,
      emitted_started_afterGetUserMedia, hfail]
  · rw [heff, attachedStreams_append, hatt, List.nil_append, attachedStreams_getUserMedia_cons,
      attachedStreams_afterGetUserMedia, hfail]
  · rw [heff, getUserMediaCalls_append, hcalls, hfail]
    rfl
  · rw [heff, hfail]
    rfl

/-- Witness of C9: a browser that refuses the request with NotAllowedError. -/
theorem construct_failure_reports_platform_error_witness :
    emitted "webcamerror"
        (construct (browser [] deny [(1280, 720)]) defaultConstraints none false).2.effects
        = [Payload.error "NotAllowedError" "Permission denied"]
      ∧ emitted "webcamstarted"
          (construct (browser [] deny [(1280, 720)]) defaultConstraints none false).2.effects = []
      ∧ attachedStreams
          (construct (browser [] deny [(1280, 720)]) defaultConstraints none false).2.effects = []
      ∧ getUserMediaCalls
          (construct (browser [] deny [(1280, 720)]) defaultConstraints none false).2.effects
          = [defaultConstraints]
      ∧ (∃ pre, (construct (browser [] deny [(1280, 720)]) defaultConstraints none
            false).2.effects
          = pre ++ [Effect.getUserMedia defaultConstraints,
                    Effect.emit "webcamerror"
                      (Payload.error "NotAllowedError" "Permission denied")]) :=
  construct_failure_reports_platform_error (browser [] deny [(1280, 720)]) defaultConstraints
    none false _ deny defaultConstraints
    { name := "NotAllowedError", message := "Permission denied" } rfl rfl
    (List.mem_singleton.2 rfl) rfl

/-! ## Timing of the events -/

/-- C4 fails on the code: on a page without navigator.mediaDevices the emit of
webcamerror is the last effect of the constructor itself, nothing happens
afterwards, and handlers registered right after the construction receive
nothing; on the catch path (a refused request) the same handlers do receive
the error. -/
theorem construct_emits_error_before_returning :
    (construct noCapturePlatform defaultConstraints none false).2.duringConstruction
        = [Effect.newScene, Effect.createVideo, Effect.newTexture,
           Effect.emit "webcamerror"
             (Payload.error "LOCAR_NO_MEDIA_DEVICES_API" "Media devices API not supported")]
      ∧ (construct noCapturePlatform defaultConstraints none false).2.afterConstruction = []
      ∧ deliveredAfterConstruction (construct noCapturePlatform defaultConstraints none false).2
          ["webcamerror", "webcamstarted"] = []
      ∧ deliveredAfterConstruction (construct (browser [] deny []) defaultConstraints none false).2
          ["webcamerror", "webcamstarted"]
          = [("webcamerror", Payload.error "NotAllowedError" "Permission denied")] := by
  refine ⟨rfl, rfl, ?_, ?_⟩ <;> decide

/-- With the capture API present nothing is emitted before the constructor
returns. -/
theorem construct_no_emit_during_construction (p : Platform) (constraints : JsValue)
    (videoElementSelector : Option String) (findMaxWidthDevice : Bool) (md : MediaDevices)
    (getUserMedia : JsValue → Settled MediaStream) (event : String)
    (h1 : p.mediaDevices = some md) (h2 : md.getUserMedia = some getUserMedia) :
    emitted event
      (construct p constraints videoElementSelector findMaxWidthDevice).2.duringConstruction
      = [] := by
  have hsplit : (construct p constraints videoElementSelector
      findMaxWidthDevice).2.duringConstruction
      = constructorPrologue videoElementSelector
          ++ (initCamera p { texture := p.newVideoTexture } constraints
                findMaxWidthDevice).duringConstruction := rfl
  rw [hsplit, emitted_append, emitted_prologue]
  cases findMaxWidthDevice <;> simp [initCamera, h1, h2, emitted, Effect.emittedAs]

end Locar
